import Mathlib

/-!
Shallow embedding of the fire-fit-demo outfit subsystem:
the preset catalog (src/utils/seasonPresets.js), the deterministic style
synthesizer (src/utils/mockAI.js) and the tiered operation executor
(src/services/outfitAPI.js: uploadFile, analyzeFit, saveFit, getSavedFits,
deleteOutfit).

Modelling conventions:
- JS nullable strings become `Option String`; both `null` and `undefined`
  map to `none`.  JS truthiness of such a value is `truthy` below (absent
  and the empty string are falsy).
- A JS function that can throw returns `Option`/`Except`; `none`/`error`
  is the thrown path.
- `Math.floor(Math.random() * arr.length)` is modelled by threading an
  arbitrary natural draw `r` and indexing at `r % arr.length`; for a
  nonempty array this yields exactly the set of possible JS outcomes, and
  for an empty array it yields `none` (JS `undefined`).
- Timestamps (`Date.now()`, `new Date().toISOString()`) are an explicit
  `now : Nat` parameter.
- The Supabase backend and localStorage are explicit state: `Store` holds
  the remote `outfits` table, the backend id sequence, and the
  `saved_outfits` localStorage key.  `Env` says which gateway tiers are
  reachable on a given call (a tier that is down raises, which the source
  catches to fall through).
-/

namespace FireFit

/-- JS truthiness of a nullable string: `null`/`undefined` and `""` are falsy. -/
def truthy : Option String → Bool
  | none => false
  | some s => s ≠ ""

/-- `o || d` on a JS nullable string: the value when truthy, else the default. -/
def truthyOr (o : Option String) (d : String) : String :=
  match o with
  | none => d
  | some s => if s = "" then d else s

/-! ## Preset catalog — src/utils/seasonPresets.js -/

structure SeasonPreset where
  season : String
  recommendedColors : List String
  suggestedFormality : String
  recommendedAccessories : List String
  aesthetic : List String
  description : String
deriving DecidableEq

def springPreset : SeasonPreset :=
  { season := "Spring"
    recommendedColors := ["pastel pink", "mint green", "lavender", "cream"]
    suggestedFormality := "casual"
    recommendedAccessories := ["sunglasses", "light scarf", "bracelet", "floral headband"]
    aesthetic := ["floral", "airy", "layered", "fresh"]
    description := "Light, pastel tones with breathable fabrics" }

def summerPreset : SeasonPreset :=
  { season := "Summer"
    recommendedColors := ["white", "bright yellow", "coral", "turquoise"]
    suggestedFormality := "casual"
    recommendedAccessories := ["sunglasses", "beach hat", "sandals", "minimalist jewelry"]
    aesthetic := ["beachy", "bright", "minimalist", "breezy"]
    description := "Bright, breathable fabrics and lightweight accessories" }

def fallPreset : SeasonPreset :=
  { season := "Fall"
    recommendedColors := ["rust", "olive", "burgundy", "mustard", "brown"]
    suggestedFormality := "casual"
    recommendedAccessories := ["scarf", "beanie", "crossbody bag", "ankle boots"]
    aesthetic := ["earthy", "layered", "cozy", "vintage"]
    description := "Earthy tones with layered pieces and warm accessories" }

def winterPreset : SeasonPreset :=
  { season := "Winter"
    recommendedColors := ["gray", "navy", "black", "burgundy", "forest green"]
    suggestedFormality := "casual"
    recommendedAccessories := ["scarf", "gloves", "beanie", "winter boots"]
    aesthetic := ["cozy", "layered", "thermal", "minimalist"]
    description := "Warm, muted colors with thermal layers and protective accessories" }

/-- `SEASON_PRESETS[name]`: object key access, `none` when the key is absent. -/
def SEASON_PRESETS : String → Option SeasonPreset
  | "Spring" => some springPreset
  | "Summer" => some summerPreset
  | "Fall" => some fallPreset
  | "Winter" => some winterPreset
  | _ => none

/-- `getSeasonPreset`: `SEASON_PRESETS[seasonName] || SEASON_PRESETS.Spring`. -/
def getSeasonPreset (seasonName : String) : SeasonPreset :=
  (SEASON_PRESETS seasonName).getD springPreset

/-! ## Deterministic Style Synthesizer — src/utils/mockAI.js -/

/-- `topDescriptions[season]` — a plain object lookup, with NO fallback
for unrecognized seasons (unlike `getSeasonPreset`). -/
def topDescriptions : String → Option (List String)
  | "Spring" => some ["floral blouse", "light cardigan", "pastel sweater", "cotton tee"]
  | "Summer" => some ["white tank top", "crop top", "linen shirt", "bright tee"]
  | "Fall" => some ["rust sweater", "olive button-up", "denim jacket", "cozy hoodie"]
  | "Winter" => some ["chunky knit sweater", "thermal top", "turtleneck", "fleece pullover"]
  | _ => none

def topLayerDescriptions : String → Option (List String)
  | "Spring" => some ["light denim jacket", "bomber jacket", "cardigan"]
  | "Summer" => some ["kimono", "sheer cover-up", "vest"]
  | "Fall" => some ["leather jacket", "oversized blazer", "wool coat"]
  | "Winter" => some ["puffer jacket", "parka", "peacoat", "trench coat"]
  | _ => none

def bottomDescriptions : String → Option (List String)
  | "Spring" => some ["light wash jeans", "floral skirt", "khaki pants", "midi skirt"]
  | "Summer" => some ["denim shorts", "white pants", "flowy skirt", "linen trousers"]
  | "Fall" => some ["dark jeans", "corduroy pants", "plaid skirt", "cargo pants"]
  | "Winter" => some ["black jeans", "wool trousers", "fleece-lined leggings", "thermal pants"]
  | _ => none

def shoesDescriptions : String → Option (List String)
  | "Spring" => some ["white sneakers", "canvas shoes", "loafers", "sandals"]
  | "Summer" => some ["slides", "espadrilles", "sandals", "white sneakers"]
  | "Fall" => some ["ankle boots", "combat boots", "sneakers", "oxfords"]
  | "Winter" => some ["winter boots", "Chelsea boots", "insulated sneakers", "hiking boots"]
  | _ => none

/-- `aestheticOptions[formality]` lookup. -/
def aestheticOptions : String → Option (List String)
  | "casual" => some ["streetwear", "Y2K", "casual", "everyday", "relaxed"]
  | "semi-formal" => some ["smart casual", "chic", "polished", "refined"]
  | "business-casual" => some ["professional", "corporate", "minimalist", "classic"]
  | "sports" => some ["athletic", "sporty", "performance", "active"]
  | _ => none

def casualAesthetic : List String := ["streetwear", "Y2K", "casual", "everyday", "relaxed"]

/-- `getRandomItem(arr)` = `arr[Math.floor(Math.random() * arr.length)]`,
with the random draw threaded as `r`: index `r % arr.length` for a nonempty
array (exactly the JS range of possible indices), `none` (JS `undefined`)
for an empty one. -/
def getRandomItem (arr : List String) (r : Nat) : Option String :=
  arr[r % arr.length]?

/-- One garment-slot selection, `url ? getRandomItem(table[season]) : null`.
The outer `Option` is the throw: when the url is truthy and the lookup
`table[season]` produced JS `undefined`, `getRandomItem(undefined)` reads
`.length` of `undefined` and throws. -/
def pickSlot (url : Option String) (table : Option (List String)) (r : Nat) :
    Option (Option String) :=
  if truthy url then table.map (fun arr => getRandomItem arr r) else some none

/-- The random draws consumed by one `generateMockAnalysis` call, one per
`getRandomItem` call site. -/
structure Rng where
  topR : Nat
  topLayerR : Nat
  bottomR : Nat
  shoesR : Nat
  aestheticR : Nat
deriving DecidableEq

/-- The `colors` object built by the synthesizer.  JS stores `null` for an
unpopulated slot; `none` models that absent/null entry. -/
structure Colors where
  top : Option String
  topLayer : Option String
  bottom : Option String
  shoes : Option String
  accessories : Option String
deriving DecidableEq

/-- The wire shape of an analysis response (what the synthesizer returns and
what the analyze Edge Function is expected to produce). -/
structure Analysis where
  top : Option String
  topLayer : Option String
  bottom : Option String
  shoes : Option String
  accessories : List String
  aesthetic : List String
  colors : Colors
  ai_description : String
  accessories_description : Option String
  accessories_tags : List String
  ai_image_url : String
  season : String
  formality : String
  confidence : Rat
  timestamp : Nat
deriving DecidableEq

/-- The fixed SVG-data-URL placeholder `ai_image_url` of mockAI.js. -/
def MOCK_AI_IMAGE_URL : String :=
  "data:image/svg+xml,%3Csvg xmlns=\x27http://www.w3.org/2000/svg\x27 width=\x27400\x27 height=\x27600\x27 viewBox=\x270 0 400 600\x27%3E%3Crect fill=\x27%23334155\x27 width=\x27400\x27 height=\x27600\x27/%3E%3Ctext x=\x2750%25\x27 y=\x2745%25\x27 font-family=\x27Arial, sans-serif\x27 font-size=\x2724\x27 fill=\x27%238B5CF6\x27 text-anchor=\x27middle\x27 dominant-baseline=\x27middle\x27%3E🔥 AI Generated%3C/text%3E%3Ctext x=\x2750%25\x27 y=\x2755%25\x27 font-family=\x27Arial, sans-serif\x27 font-size=\x2718\x27 fill=\x27%2394A3B8\x27 text-anchor=\x27middle\x27 dominant-baseline=\x27middle\x27%3EOutfit Preview%3C/text%3E%3C/svg%3E"

/-- `buildDescription` of mockAI.js: join the truthy parts with `", "`. -/
def buildDescription (top topLayer bottom shoes : Option String)
    (accessories : List String) : String :=
  let parts :=
    (if truthy top then [top.getD ""] else []) ++
    (if truthy topLayer then ["with " ++ topLayer.getD ""] else []) ++
    (if truthy bottom then [bottom.getD ""] else []) ++
    (if truthy shoes then [shoes.getD ""] else []) ++
    (if accessories.length > 0 then
      ["accessorized with " ++ String.intercalate ", " accessories] else [])
  String.intercalate ", " parts

/-- The destructured parameters of `generateMockAnalysis`.  `season` and
`formality` are `Option` because the JS default parameter values
(`season = 'Fall'`, `formality = 'casual'`) apply when the field is absent. -/
structure MockParams where
  topUrl : Option String
  topLayerUrl : Option String
  bottomUrl : Option String
  shoesUrl : Option String
  accessoriesUrl : Option String
  season : Option String
  formality : Option String
deriving DecidableEq

/-- `generateMockAnalysis` of mockAI.js.  `none` is the thrown path: with an
unrecognized season and a truthy garment-slot url, `topDescriptions[season]`
(etc.) is `undefined` and `getRandomItem` throws reading its `.length`. -/
def generateMockAnalysis (p : MockParams) (rng : Rng) (now : Nat) : Option Analysis := do
  let season := p.season.getD "Fall"
  let formality := p.formality.getD "casual"
  let seasonPreset := getSeasonPreset season
  let top ← pickSlot p.topUrl (topDescriptions season) rng.topR
  let topLayer ← pickSlot p.topLayerUrl (topLayerDescriptions season) rng.topLayerR
  let bottom ← pickSlot p.bottomUrl (bottomDescriptions season) rng.bottomR
  let shoes ← pickSlot p.shoesUrl (shoesDescriptions season) rng.shoesR
  let accessoriesList :=
    if truthy p.accessoriesUrl then seasonPreset.recommendedAccessories.take 2 else []
  let baseAesthetic := (aestheticOptions formality).getD casualAesthetic
  -- `[...preset.aesthetic.slice(0, 2), getRandomItem(baseAesthetic)]`; the
  -- `getD "undefined"` branch is the JS `undefined` entry an empty candidate
  -- list would produce (unreachable: every formality list is nonempty).
  let aesthetic := seasonPreset.aesthetic.take 2 ++
    [(getRandomItem baseAesthetic rng.aestheticR).getD "undefined"]
  let colors : Colors :=
    { top := if truthy top then seasonPreset.recommendedColors[0]? else none
      topLayer := if truthy topLayer then seasonPreset.recommendedColors[1]? else none
      bottom := if truthy bottom then seasonPreset.recommendedColors[2]? else none
      shoes := if truthy shoes then
          some (truthyOr seasonPreset.recommendedColors[3]? "neutral") else none
      accessories := if accessoriesList.length > 0 then some "mixed metals" else none }
  some
    { top := top
      topLayer := topLayer
      bottom := bottom
      shoes := shoes
      accessories := accessoriesList
      aesthetic := aesthetic
      colors := colors
      ai_description := buildDescription top topLayer bottom shoes accessoriesList
      accessories_description :=
        if accessoriesList.length > 0 then
          some ("Accessorized with " ++ String.intercalate " and " accessoriesList)
        else none
      accessories_tags := accessoriesList
      ai_image_url := MOCK_AI_IMAGE_URL
      season := season
      formality := formality
      confidence := (85 : Rat) / 100
      timestamp := now }

/-! ## Tiered operation executor — src/services/outfitAPI.js -/

/-- `outfitId.startsWith('local_')`, modelled as a character-list test
(extensionally the same test, kernel-evaluable). -/
def startsWithLocal (outfitId : String) : Bool :=
  "local_".data.isPrefixOf outfitId.data

/-- One persisted outfit row (the `outfits` table shape, also the shape the
localStorage `saved_outfits` list holds). -/
structure OutfitData where
  session_id : String
  top_url : Option String
  top_layer_url : Option String
  bottom_url : Option String
  shoes_url : Option String
  accessories_url : Option String
  ai_description : Option String
  ai_image_url : Option String
  season : Option String
  formality : Option String
  aesthetic : List String
  colors : Colors
  accessories_description : Option String
  accessories_tags : List String
  saved : Bool
  created_at : Nat
deriving DecidableEq

/-- A stored row: server/local id plus the record content. -/
structure Row where
  id : String
  data : OutfitData
deriving DecidableEq

/-- The payload `saveFit` receives from the page (`handleSave`). `aesthetic`,
`colors`, `accessories_tags` are `Option` because `saveFit` applies
`|| []` / `|| {}` defaults to them. -/
structure SavePayload where
  session_id : String
  top_url : Option String
  top_layer_url : Option String
  bottom_url : Option String
  shoes_url : Option String
  accessories_url : Option String
  ai_description : Option String
  ai_image_url : Option String
  season : Option String
  formality : Option String
  aesthetic : Option (List String)
  colors : Option Colors
  accessories_description : Option String
  accessories_tags : Option (List String)
deriving DecidableEq

def emptyColors : Colors :=
  { top := none, topLayer := none, bottom := none, shoes := none, accessories := none }

/-- The `outfitData` object `saveFit` builds: payload fields with
`|| []` / `|| {}` defaults, `saved: true`, `created_at: now`. -/
def outfitDataOf (p : SavePayload) (now : Nat) : OutfitData :=
  { session_id := p.session_id
    top_url := p.top_url
    top_layer_url := p.top_layer_url
    bottom_url := p.bottom_url
    shoes_url := p.shoes_url
    accessories_url := p.accessories_url
    ai_description := p.ai_description
    ai_image_url := p.ai_image_url
    season := p.season
    formality := p.formality
    aesthetic := p.aesthetic.getD []
    colors := p.colors.getD emptyColors
    accessories_description := p.accessories_description
    accessories_tags := p.accessories_tags.getD []
    saved := true
    created_at := now }

/-- Which gateway tiers are reachable on a call.  A tier that is down
raises; the source catches that and falls through. -/
structure Env where
  edgeUp : Bool
  dbUp : Bool
deriving DecidableEq

/-- External state: the backend `outfits` table with its id sequence, and
the localStorage `saved_outfits` list. -/
structure Store where
  outfits : List Row
  nextId : Nat
  saved_outfits : List Row
deriving DecidableEq

/-- `saveFit` of outfitAPI.js.  Tier 1: the `save-fit` Edge Function (which
itself inserts the same `outfitData` into the `outfits` table and returns
the inserted row, supabase/functions/save-fit).  Tier 2: direct
`supabase.from('outfits').insert(outfitData)`.  Tier 3 (both gateway tiers
raised): append to localStorage with a `local_${Date.now()}` id.  Always
resolves to the persisted row. -/
def saveFit (env : Env) (p : SavePayload) (now : Nat) (st : Store) : Row × Store :=
  let outfitData := outfitDataOf p now
  if env.edgeUp then
    let row : Row := { id := toString st.nextId, data := outfitData }
    (row, { st with outfits := st.outfits ++ [row], nextId := st.nextId + 1 })
  else if env.dbUp then
    let row : Row := { id := toString st.nextId, data := outfitData }
    (row, { st with outfits := st.outfits ++ [row], nextId := st.nextId + 1 })
  else
    let localOutfit : Row := { id := "local_" ++ toString now, data := outfitData }
    (localOutfit, { st with saved_outfits := st.saved_outfits ++ [localOutfit] })

/-- Newest-first order on rows (`order('created_at', { ascending: false })`). -/
def newestFirst (a b : Row) : Prop :=
  b.data.created_at ≤ a.data.created_at

instance : DecidableRel newestFirst := fun a b =>
  Nat.decLe b.data.created_at a.data.created_at

instance : IsTotal Row newestFirst :=
  ⟨fun a b => Nat.le_total b.data.created_at a.data.created_at⟩

instance : IsTrans Row newestFirst :=
  ⟨fun _ _ _ hab hbc => Nat.le_trans hbc hab⟩

/-- The query both gateway tiers run: `eq('session_id', sid)`,
`eq('saved', true)`, `order('created_at', { ascending: false })`
(the `getSavedFits` Edge Function runs the identical query). -/
def gatewayQuery (sessionId : String) (rows : List Row) : List Row :=
  List.insertionSort newestFirst
    (rows.filter (fun r => r.data.session_id == sessionId && r.data.saved))

/-- `getSavedFits` of outfitAPI.js.  Tier 1: `getSavedFits` Edge Function;
tier 2: direct table query (the same filter and order); tier 3: read
localStorage and `filter(outfit => outfit.session_id === sessionId)` — no
`saved` check and no reordering.  The outer catch returns `[]`, so the
model is total. -/
def getSavedFits (env : Env) (sessionId : String) (st : Store) : List Row :=
  if env.edgeUp then
    gatewayQuery sessionId st.outfits
  else if env.dbUp then
    gatewayQuery sessionId st.outfits
  else
    st.saved_outfits.filter (fun r => r.data.session_id == sessionId)

/-- `deleteOutfit` of outfitAPI.js: dispatch on the id's origin.  A
non-`local_` id goes to the gateway delete only (a raise is caught and
yields `false`); a `local_` id is filtered out of localStorage only. -/
def deleteOutfit (env : Env) (outfitId : String) (st : Store) : Bool × Store :=
  if !startsWithLocal outfitId then
    if env.dbUp then
      (true, { st with outfits := st.outfits.filter (fun r => r.id != outfitId) })
    else
      (false, st)
  else
    (true, { st with saved_outfits := st.saved_outfits.filter (fun r => r.id != outfitId) })

/-! ### analyzeFit -/

/-- Outcome of `supabase.functions.invoke('analyze-fit')`: either the call
raised / returned an `error`, or it returned `data` (possibly null). -/
inductive EdgeOutcome where
  | failed : EdgeOutcome
  | ok : Option Analysis → EdgeOutcome
deriving DecidableEq

/-- The validation `data && (data.top || data.ai_description)` applied to
the Edge Function response (`""` and absent are both falsy). -/
def edgeDataUsable : Option Analysis → Bool
  | none => false
  | some a => truthy a.top || a.ai_description != ""

/-- The payload `analyzeFit` receives (`analysisPayload` in the page). -/
structure AnalyzePayload where
  session_id : String
  top_url : Option String
  top_layer_url : Option String
  bottom_url : Option String
  shoes_url : Option String
  accessories_url : Option String
  season : Option String
  formality : Option String
deriving DecidableEq

/-- How `analyzeFit` maps its payload onto `generateMockAnalysis`'s
parameters. -/
def mockParamsOf (p : AnalyzePayload) : MockParams :=
  { topUrl := p.top_url
    topLayerUrl := p.top_layer_url
    bottomUrl := p.bottom_url
    shoesUrl := p.shoes_url
    accessoriesUrl := p.accessories_url
    season := p.season
    formality := p.formality }

/-- `analyzeFit` of outfitAPI.js.  Returns the Edge Function `data` when
the call succeeded and the payload passes the descriptive-field check;
any failure (raise, `error`, null or structurally empty `data`) falls
through to `generateMockAnalysis`.  The outer catch rethrows, so a throw
from the mock path (`none`) propagates to the caller. -/
def analyzeFit (edge : EdgeOutcome) (p : AnalyzePayload) (rng : Rng) (now : Nat) :
    Option Analysis :=
  match edge with
  | .ok d => if edgeDataUsable d then d else generateMockAnalysis (mockParamsOf p) rng now
  | .failed => generateMockAnalysis (mockParamsOf p) rng now

/-! ### uploadFile -/

/-- Outcome of the `supabase.storage.from('outfit-images').upload` call. -/
inductive StorageOutcome where
  | ok : StorageOutcome
  | failed : String → StorageOutcome
deriving DecidableEq

/-- `file.name.replace(/[^a-zA-Z0-9.-]/g, '_')`, as a character-wise map
over the string's character list. -/
def sanitizeName (name : String) : String :=
  ⟨name.data.map (fun c => if c.isAlphanum || c = '.' || c = '-' then c else '_')⟩

/-- `getPublicUrl(filePath)`: the storage public-URL base plus the path. -/
def publicUrlFor (filePath : String) : String :=
  "https://storage/outfit-images/" ++ filePath

/-- `uploadFile` of outfitAPI.js.  No fallback tier: a missing file or a
failed storage call is rethrown by the catch block (`Except.error`);
success resolves to the public URL of the uploaded path. -/
def uploadFile (storage : StorageOutcome) (file : Option String)
    (category sessionId : String) (now : Nat) : Except String String :=
  match file with
  | none => .error "No file provided"
  | some name =>
    match storage with
    | .failed msg => .error msg
    | .ok =>
      let fileName := toString now ++ "_" ++ sanitizeName name
      let filePath := sessionId ++ "/originals/" ++ category ++ "_" ++ fileName
      .ok (publicUrlFor filePath)

/-! ## Concrete instances used by witnesses and counterexamples -/

def rng0 : Rng := ⟨0, 0, 0, 0, 0⟩

def envAllUp : Env := ⟨true, true⟩

def envAllDown : Env := ⟨false, false⟩

def emptyStore : Store := ⟨[], 0, []⟩

/-- A sample save payload for session "s". -/
def samplePayload : SavePayload :=
  { session_id := "s"
    top_url := some "https://t.png", top_layer_url := none, bottom_url := none
    shoes_url := none, accessories_url := none
    ai_description := some "rust sweater", ai_image_url := none
    season := some "Fall", formality := some "casual"
    aesthetic := some ["earthy", "layered", "casual"], colors := none
    accessories_description := none, accessories_tags := some [] }

/-- An older locally-cached row for session "s" (`created_at = 1`). -/
def rowOld : Row := ⟨"local_1", outfitDataOf samplePayload 1⟩

/-- A newer locally-cached row for session "s" (`created_at = 2`). -/
def rowNew : Row := ⟨"local_2", outfitDataOf samplePayload 2⟩

/-- A store whose local cache holds the two rows in append order
(oldest first) and whose backend table is empty. -/
def cacheStore : Store := ⟨[], 0, [rowOld, rowNew]⟩

/-- A store whose backend table holds the two rows, oldest first. -/
def backendStore : Store := ⟨[rowOld, rowNew], 0, []⟩

/-- A sample remote analysis payload with a descriptive `top` field. -/
def sampleRemoteAnalysis : Analysis :=
  { top := some "rust sweater", topLayer := none, bottom := none, shoes := none
    accessories := [], aesthetic := ["earthy"], colors := emptyColors
    ai_description := "rust sweater", accessories_description := none
    accessories_tags := [], ai_image_url := "https://img.png"
    season := "Fall", formality := "casual", confidence := (9 : Rat) / 10
    timestamp := 0 }

def sampleAnalyzePayload : AnalyzePayload :=
  { session_id := "s", top_url := some "https://t.png", top_layer_url := none
    bottom_url := none, shoes_url := none, accessories_url := none
    season := some "Fall", formality := some "casual" }

/-- How many rows of a list carry exactly this record content (ids ignored). -/
def contentCount (d : OutfitData) (l : List Row) : Nat :=
  l.countP (fun r => r.data == d)

/-- Whether the analyze gateway tier is treated as failed: the call raised,
returned an `error`, returned no data, or returned data with no descriptive
field. -/
def edgeTierFailed : EdgeOutcome → Bool
  | .failed => true
  | .ok d => !edgeDataUsable d

/-- Synthesizer context: Fall / casual, top slot populated. -/
def mp0 : MockParams :=
  ⟨some "https://t.png", none, none, none, none, some "Fall", some "casual"⟩

/-- Synthesizer context of the C6 scenario: Fall / casual, only the bottom
slot populated. -/
def c6params : MockParams :=
  ⟨none, none, some "https://bottom.png", none, none, some "Fall", some "casual"⟩

/-! ## Helper lemmas -/

theorem pickSlot_table_some (url : Option String) (arr : List String) (r : Nat) :
    pickSlot url (some arr) r = some (if truthy url then getRandomItem arr r else none) := by
  cases h : truthy url <;> simp [pickSlot, h]

theorem getRandomItem_mem (arr : List String) (r : Nat) (h : arr ≠ []) :
    ∃ x, getRandomItem arr r = some x ∧ x ∈ arr := by
  have hlen : 0 < arr.length := List.length_pos.mpr h
  have hlt : r % arr.length < arr.length := Nat.mod_lt _ hlen
  refine ⟨arr[r % arr.length], ?_, List.getElem_mem hlt⟩
  simp [getRandomItem, List.getElem?_eq_getElem hlt]

theorem startsWithLocal_append (s : String) : startsWithLocal ("local_" ++ s) = true := by
  have : "local_".data <+: ("local_" ++ s).data := by
    rw [String.data_append]; exact List.prefix_append _ _
  simp [startsWithLocal, List.isPrefixOf_iff_prefix, this]

/-- When all four description-table lookups hit (i.e. the season is one of
the four recognized ones), the synthesizer does not throw and its output
has the shape below. -/
theorem generateMockAnalysis_eq_of_tables (p : MockParams) (rng : Rng) (now : Nat)
    (tops layers bottoms shoesCands : List String)
    (ht : topDescriptions (p.season.getD "Fall") = some tops)
    (hl : topLayerDescriptions (p.season.getD "Fall") = some layers)
    (hb : bottomDescriptions (p.season.getD "Fall") = some bottoms)
    (hsh : shoesDescriptions (p.season.getD "Fall") = some shoesCands) :
    generateMockAnalysis p rng now =
      (let seasonPreset := getSeasonPreset (p.season.getD "Fall")
      let top := if truthy p.topUrl then getRandomItem tops rng.topR else none
      let topLayer := if truthy p.topLayerUrl then getRandomItem layers rng.topLayerR else none
      let bottom := if truthy p.bottomUrl then getRandomItem bottoms rng.bottomR else none
      let shoes := if truthy p.shoesUrl then getRandomItem shoesCands rng.shoesR else none
      let accessoriesList :=
        if truthy p.accessoriesUrl then seasonPreset.recommendedAccessories.take 2 else []
      some
        { top := top
          topLayer := topLayer
          bottom := bottom
          shoes := shoes
          accessories := accessoriesList
          aesthetic := seasonPreset.aesthetic.take 2 ++
            [(getRandomItem ((aestheticOptions (p.formality.getD "casual")).getD casualAesthetic)
              rng.aestheticR).getD "undefined"]
          colors :=
            { top := if truthy top then seasonPreset.recommendedColors[0]? else none
              topLayer := if truthy topLayer then seasonPreset.recommendedColors[1]? else none
              bottom := if truthy bottom then seasonPreset.recommendedColors[2]? else none
              shoes := if truthy shoes then
                  some (truthyOr seasonPreset.recommendedColors[3]? "neutral") else none
              accessories := if accessoriesList.length > 0 then some "mixed metals" else none }
          ai_description := buildDescription top topLayer bottom shoes accessoriesList
          accessories_description :=
            if accessoriesList.length > 0 then
              some ("Accessorized with " ++ String.intercalate " and " accessoriesList)
            else none
          accessories_tags := accessoriesList
          ai_image_url := MOCK_AI_IMAGE_URL
          season := p.season.getD "Fall"
          formality := p.formality.getD "casual"
          confidence := (85 : Rat) / 100
          timestamp := now }) := by
  simp only [generateMockAnalysis, ht, hl, hb, hsh, pickSlot_table_some]
  rfl

/-! ## Claim theorems -/

/-- C1: the claim says `generateMockAnalysis` is total for every season
string, with unrecognized seasons falling back to a default preset.  The
fallback exists only for the preset lookup: the garment description tables
are indexed by the raw season, so an unrecognized season together with a
populated garment slot makes `getRandomItem(topDescriptions[season])` read
`.length` of `undefined` and throw.  This theorem evaluates the code at
that failing input: season "Autumn" with a populated top slot throws
(models as `none`). -/
theorem generateMockAnalysis_throws_on_unrecognized_season :
    generateMockAnalysis
      ⟨some "https://top.png", none, none, none, none, some "Autumn", some "casual"⟩
      rng0 0 = none := by
  rfl

/-- C5: when both gateway save tiers raise, `saveFit` still resolves: the
returned record's id is `local_` ++ timestamp (hence carries the
local-origin marker), it is appended to the local cache (backend table
untouched), and a subsequent `getSavedFits` for the same session — served
from the cache tier — includes it. -/
theorem save_gateway_down_local_fallback (p : SavePayload) (now : Nat) (st : Store) :
    (saveFit envAllDown p now st).1.id = "local_" ++ toString now ∧
    startsWithLocal (saveFit envAllDown p now st).1.id = true ∧
    (saveFit envAllDown p now st).2.saved_outfits
      = st.saved_outfits ++ [(saveFit envAllDown p now st).1] ∧
    (saveFit envAllDown p now st).2.outfits = st.outfits ∧
    (saveFit envAllDown p now st).1
      ∈ getSavedFits envAllDown p.session_id (saveFit envAllDown p now st).2 := by
  refine ⟨rfl, startsWithLocal_append _, rfl, rfl, ?_⟩
  simp [getSavedFits, saveFit, envAllDown, List.mem_filter, outfitDataOf]

/-- C8: `deleteOutfit` dispatches on the id's origin marker.  For a
`local_`-prefixed id it resolves `true`, leaves the backend table
untouched, removes exactly the matching entries from the local cache, and
its outcome does not depend on gateway availability at all (the gateway is
never contacted).  For any other id it leaves the local cache untouched
and only attempts the gateway delete: the boolean tracks gateway success,
and a gateway failure changes nothing. -/
theorem deleteOutfit_dispatch_on_origin (env : Env) (outfitId : String) (st : Store) :
    (startsWithLocal outfitId = true →
      (deleteOutfit env outfitId st).1 = true ∧
      (deleteOutfit env outfitId st).2.outfits = st.outfits ∧
      (deleteOutfit env outfitId st).2.saved_outfits
        = st.saved_outfits.filter (fun r => r.id != outfitId) ∧
      ∀ env2 : Env, deleteOutfit env2 outfitId st = deleteOutfit env outfitId st) ∧
    (startsWithLocal outfitId = false →
      (deleteOutfit env outfitId st).2.saved_outfits = st.saved_outfits ∧
      (deleteOutfit env outfitId st).1 = env.dbUp ∧
      (env.dbUp = true →
        (deleteOutfit env outfitId st).2.outfits
          = st.outfits.filter (fun r => r.id != outfitId)) ∧
      (env.dbUp = false → (deleteOutfit env outfitId st).2 = st)) := by
  constructor
  · intro h
    refine ⟨?_, ?_, ?_, ?_⟩ <;> simp [deleteOutfit, h]
  · intro h
    cases hdb : env.dbUp <;> simp [deleteOutfit, h, hdb]

/-- C8 witness: the theorem applied at a local id (with every gateway tier
up, which is ignored) and at a backend id with the gateway down. -/
theorem deleteOutfit_dispatch_on_origin_witness :
    (deleteOutfit envAllUp "local_1" cacheStore).1 = true ∧
    (deleteOutfit envAllUp "local_1" cacheStore).2.outfits = cacheStore.outfits ∧
    (deleteOutfit envAllDown "42" cacheStore).2 = cacheStore :=
  ⟨((deleteOutfit_dispatch_on_origin envAllUp "local_1" cacheStore).1 (by decide)).1,
   ((deleteOutfit_dispatch_on_origin envAllUp "local_1" cacheStore).1 (by decide)).2.1,
   ((deleteOutfit_dispatch_on_origin envAllDown "42" cacheStore).2 (by decide)).2.2.2 rfl⟩

/-- C9: `uploadFile` has no fallback tier: a missing file or a failed
gateway storage call is surfaced to the caller as a rejection (with the
storage failure passed through verbatim), a successful storage call
resolves to the public URL of the uploaded path, and every call either
resolves to a URL or rejects. -/
theorem uploadFile_no_fallback (storage : StorageOutcome) (file : Option String)
    (category sessionId : String) (now : Nat) :
    (file = none →
      uploadFile storage file category sessionId now = .error "No file provided") ∧
    (∀ name msg, file = some name → storage = .failed msg →
      uploadFile storage file category sessionId now = .error msg) ∧
    (∀ name, file = some name → storage = .ok →
      uploadFile storage file category sessionId now =
        .ok (publicUrlFor (sessionId ++ "/originals/" ++ category ++ "_"
          ++ (toString now ++ "_" ++ sanitizeName name)))) ∧
    ((∃ url, uploadFile storage file category sessionId now = .ok url) ∨
      (∃ e, uploadFile storage file category sessionId now = .error e)) := by
  refine ⟨fun h => by simp [uploadFile, h],
          fun name msg hf hs => by simp [uploadFile, hf, hs],
          fun name hf hs => by simp [uploadFile, hf, hs], ?_⟩
  cases file with
  | none => exact .inr ⟨_, rfl⟩
  | some name => cases storage with
    | failed msg => exact .inr ⟨_, rfl⟩
    | ok => exact .inl ⟨_, rfl⟩

/-- C9 witness: the theorem applied at a failing storage call (failure
surfaced verbatim) and at a successful one. -/
theorem uploadFile_no_fallback_witness :
    uploadFile (.failed "bucket down") (some "a b.png") "top" "s" 7 = .error "bucket down" ∧
    uploadFile .ok (some "a b.png") "top" "s" 7
      = .ok (publicUrlFor "s/originals/top_7_a_b.png") :=
  ⟨(uploadFile_no_fallback (.failed "bucket down") (some "a b.png") "top" "s" 7).2.1
      "a b.png" "bucket down" rfl rfl,
   by exact (uploadFile_no_fallback .ok (some "a b.png") "top" "s" 7).2.2.1 "a b.png" rfl rfl⟩

/-- C10: local-cache mutations are frame-preserving.  The local save tier
appends exactly one record, keeping every pre-existing cache entry, and
deleting a `local_`-prefixed id removes exactly the entries with that id:
every other entry survives, and nothing new appears. -/
theorem local_cache_mutation_frame (env : Env) (p : SavePayload) (now : Nat)
    (st : Store) (outfitId : String) (h : startsWithLocal outfitId = true) :
    ((saveFit envAllDown p now st).2.saved_outfits
        = st.saved_outfits ++ [(saveFit envAllDown p now st).1] ∧
      ∀ r ∈ st.saved_outfits, r ∈ (saveFit envAllDown p now st).2.saved_outfits) ∧
    ((deleteOutfit env outfitId st).2.saved_outfits
        = st.saved_outfits.filter (fun r => r.id != outfitId) ∧
      (∀ r ∈ st.saved_outfits, r.id ≠ outfitId →
        r ∈ (deleteOutfit env outfitId st).2.saved_outfits) ∧
      ∀ r ∈ (deleteOutfit env outfitId st).2.saved_outfits, r ∈ st.saved_outfits) := by
  refine ⟨⟨rfl, fun r hr => by simp [saveFit, envAllDown, hr]⟩, ?_, ?_, ?_⟩
  · simp [deleteOutfit, h]
  · intro r hr hne
    simp [deleteOutfit, h, List.mem_filter, hr, hne]
  · intro r hr
    simp only [deleteOutfit, h] at hr
    simp at hr
    exact hr.1

/-- Core of the synthesizer invariant, season-generic: whenever all four
description-table lookups hit, the output exists, its aesthetic list is
nonempty, and every colors entry is tied to a populated slot. -/
theorem synth_invariant_core (p : MockParams) (rng : Rng) (now : Nat)
    (tops layers bottoms shoesCands : List String)
    (ht : topDescriptions (p.season.getD "Fall") = some tops)
    (hl : topLayerDescriptions (p.season.getD "Fall") = some layers)
    (hb : bottomDescriptions (p.season.getD "Fall") = some bottoms)
    (hsh : shoesDescriptions (p.season.getD "Fall") = some shoesCands) :
    ∃ a, generateMockAnalysis p rng now = some a ∧
      1 ≤ a.aesthetic.length ∧
      (a.colors.top.isSome = true → truthy p.topUrl = true) ∧
      (a.colors.topLayer.isSome = true → truthy p.topLayerUrl = true) ∧
      (a.colors.bottom.isSome = true → truthy p.bottomUrl = true) ∧
      (a.colors.shoes.isSome = true → truthy p.shoesUrl = true) ∧
      (a.colors.accessories.isSome = true → truthy p.accessoriesUrl = true) ∧
      (truthy p.topUrl = false → truthy p.topLayerUrl = false →
        truthy p.bottomUrl = false → truthy p.shoesUrl = false →
        truthy p.accessoriesUrl = false → a.colors = emptyColors) := by
  rw [generateMockAnalysis_eq_of_tables p rng now tops layers bottoms shoesCands ht hl hb hsh]
  refine ⟨_, rfl, ?_, ?_, ?_, ?_, ?_, ?_, ?_⟩
  · simp
  · cases h1 : truthy p.topUrl <;> simp [truthy, h1]
  · cases h1 : truthy p.topLayerUrl <;> simp [truthy, h1]
  · cases h1 : truthy p.bottomUrl <;> simp [truthy, h1]
  · cases h1 : truthy p.shoesUrl <;> simp [truthy, h1]
  · cases h1 : truthy p.accessoriesUrl <;> simp [truthy, h1]
  · intro h1 h2 h3 h4 h5
    simp only [h1, h2, h3, h4, h5]
    simp [truthy, emptyColors]

/-- C2: for every recognized season (any formality string, any combination
of populated slots), the synthesizer resolves, its `aesthetic` list has
length at least 1, and a `colors` entry for a garment slot exists only if
that slot's image-reference field is truthy — in particular, with no slots
populated the colors map is the empty (all-absent) map. -/
theorem synthesizer_aesthetic_and_colors_invariant (p : MockParams) (rng : Rng) (now : Nat)
    (hs : p.season.getD "Fall" ∈ ["Spring", "Summer", "Fall", "Winter"]) :
    ∃ a, generateMockAnalysis p rng now = some a ∧
      1 ≤ a.aesthetic.length ∧
      (a.colors.top.isSome = true → truthy p.topUrl = true) ∧
      (a.colors.topLayer.isSome = true → truthy p.topLayerUrl = true) ∧
      (a.colors.bottom.isSome = true → truthy p.bottomUrl = true) ∧
      (a.colors.shoes.isSome = true → truthy p.shoesUrl = true) ∧
      (a.colors.accessories.isSome = true → truthy p.accessoriesUrl = true) ∧
      (truthy p.topUrl = false → truthy p.topLayerUrl = false →
        truthy p.bottomUrl = false → truthy p.shoesUrl = false →
        truthy p.accessoriesUrl = false → a.colors = emptyColors) := by
  simp only [List.mem_cons, List.not_mem_nil, or_false] at hs
  obtain h | h | h | h := hs
  · exact synth_invariant_core p rng now
      ["floral blouse", "light cardigan", "pastel sweater", "cotton tee"]
      ["light denim jacket", "bomber jacket", "cardigan"]
      ["light wash jeans", "floral skirt", "khaki pants", "midi skirt"]
      ["white sneakers", "canvas shoes", "loafers", "sandals"]
      (by rw [h]; rfl) (by rw [h]; rfl) (by rw [h]; rfl) (by rw [h]; rfl)
  · exact synth_invariant_core p rng now
      ["white tank top", "crop top", "linen shirt", "bright tee"]
      ["kimono", "sheer cover-up", "vest"]
      ["denim shorts", "white pants", "flowy skirt", "linen trousers"]
      ["slides", "espadrilles", "sandals", "white sneakers"]
      (by rw [h]; rfl) (by rw [h]; rfl) (by rw [h]; rfl) (by rw [h]; rfl)
  · exact synth_invariant_core p rng now
      ["rust sweater", "olive button-up", "denim jacket", "cozy hoodie"]
      ["leather jacket", "oversized blazer", "wool coat"]
      ["dark jeans", "corduroy pants", "plaid skirt", "cargo pants"]
      ["ankle boots", "combat boots", "sneakers", "oxfords"]
      (by rw [h]; rfl) (by rw [h]; rfl) (by rw [h]; rfl) (by rw [h]; rfl)
  · exact synth_invariant_core p rng now
      ["chunky knit sweater", "thermal top", "turtleneck", "fleece pullover"]
      ["puffer jacket", "parka", "peacoat", "trench coat"]
      ["black jeans", "wool trousers", "fleece-lined leggings", "thermal pants"]
      ["winter boots", "Chelsea boots", "insulated sneakers", "hiking boots"]
      (by rw [h]; rfl) (by rw [h]; rfl) (by rw [h]; rfl) (by rw [h]; rfl)

/-- C2 witness: the invariant instantiated at Fall / casual with the top
slot populated. -/
theorem synthesizer_aesthetic_and_colors_invariant_witness :
    ∃ a, generateMockAnalysis mp0 rng0 3 = some a ∧
      1 ≤ a.aesthetic.length ∧
      (a.colors.top.isSome = true → truthy mp0.topUrl = true) ∧
      (a.colors.topLayer.isSome = true → truthy mp0.topLayerUrl = true) ∧
      (a.colors.bottom.isSome = true → truthy mp0.bottomUrl = true) ∧
      (a.colors.shoes.isSome = true → truthy mp0.shoesUrl = true) ∧
      (a.colors.accessories.isSome = true → truthy mp0.accessoriesUrl = true) ∧
      (truthy mp0.topUrl = false → truthy mp0.topLayerUrl = false →
        truthy mp0.bottomUrl = false → truthy mp0.shoesUrl = false →
        truthy mp0.accessoriesUrl = false → a.colors = emptyColors) :=
  synthesizer_aesthetic_and_colors_invariant mp0 rng0 3 (by decide)

/-- C6: season "Fall", formality "casual", only the bottom slot populated:
the synthesizer resolves to a record with absent top/topLayer/shoes
descriptions, a bottom drawn from the four Fall bottom candidates,
`colors.bottom` equal to the Fall preset's third palette color
("burgundy"), an empty accessories tag list, and an aesthetic list of
exactly 3 entries: the first two Fall season tags plus one casual tag. -/
theorem fall_casual_bottom_only_scenario (rng : Rng) (now : Nat) :
    ∃ a, generateMockAnalysis c6params rng now = some a ∧
      a.top = none ∧ a.topLayer = none ∧ a.shoes = none ∧
      (∃ x, a.bottom = some x ∧
        x ∈ ["dark jeans", "corduroy pants", "plaid skirt", "cargo pants"]) ∧
      a.colors.bottom = some "burgundy" ∧
      a.accessories_tags = [] ∧
      a.aesthetic.length = 3 ∧
      ∃ t, t ∈ ["streetwear", "Y2K", "casual", "everyday", "relaxed"] ∧
        a.aesthetic = ["earthy", "layered", t] := by
  obtain ⟨x, hx, hxmem⟩ := getRandomItem_mem
    ["dark jeans", "corduroy pants", "plaid skirt", "cargo pants"] rng.bottomR (by decide)
  obtain ⟨t, ht', htmem⟩ := getRandomItem_mem casualAesthetic rng.aestheticR (by decide)
  simp only [casualAesthetic] at ht'
  have hxne : x ≠ "" := by fin_cases hxmem <;> decide
  rw [generateMockAnalysis_eq_of_tables c6params rng now _ _ _ _ rfl rfl rfl rfl]
  refine ⟨_, rfl, ?_, ?_, ?_, ⟨x, ?_, hxmem⟩, ?_, ?_, ?_, ⟨t, htmem, ?_⟩⟩
  · simp [truthy, c6params]
  · simp [truthy, c6params]
  · simp [truthy, c6params]
  · simp [truthy, c6params, hx]
  · simp [truthy, c6params, hx, hxne, getSeasonPreset, SEASON_PRESETS, fallPreset]
  · simp [truthy, c6params]
  · simp [truthy, c6params, getSeasonPreset, SEASON_PRESETS, fallPreset,
      aestheticOptions, ht']
  · simp [truthy, c6params, getSeasonPreset, SEASON_PRESETS, fallPreset,
      aestheticOptions, ht']

/-- Counting content occurrences through the gateway query: the sort is a
permutation, so counting commutes with it, and the filter folds into the
counted predicate. -/
theorem contentCount_gatewayQuery (sid : String) (rows : List Row) (d : OutfitData) :
    contentCount d (gatewayQuery sid rows)
      = rows.countP
          (fun r => (r.data == d) && (r.data.session_id == sid && r.data.saved)) := by
  unfold contentCount gatewayQuery
  rw [(List.perm_insertionSort newestFirst _).countP_eq, List.countP_filter]

/-- C3 counterexample: the claim quantifies the save tier and the fetchAll
tier independently, but the tiers do not share state.  Save with both
gateway tiers down (the record lands in the local cache only), then
fetchAll served by the gateway tier: the saved content appears 0 times,
not exactly once. -/
theorem save_fetch_cross_tier_loses_record :
    contentCount (outfitDataOf samplePayload 5)
      (getSavedFits envAllUp samplePayload.session_id
        (saveFit envAllDown samplePayload 5 emptyStore).2) = 0 := by
  decide

/-- C3 (amended): when the same tier availability governs both calls — so
the fetch is served by the same tier level that accepted the save — a save
followed by fetchAll for that session returns the saved record's content
(ids ignored) exactly once, provided no already-stored record carries the
same content. -/
theorem save_then_fetch_same_env_exactly_once (env : Env) (p : SavePayload) (now : Nat)
    (st : Store)
    (h1 : ∀ r ∈ st.outfits, r.data ≠ outfitDataOf p now)
    (h2 : ∀ r ∈ st.saved_outfits, r.data ≠ outfitDataOf p now) :
    contentCount (outfitDataOf p now)
      (getSavedFits env p.session_id (saveFit env p now st).2) = 1 := by
  obtain ⟨eu, du⟩ := env
  have hrow : ∀ i : String,
      contentCount (outfitDataOf p now)
        (gatewayQuery p.session_id (st.outfits ++ [⟨i, outfitDataOf p now⟩])) = 1 := by
    intro i
    rw [contentCount_gatewayQuery, List.countP_append]
    have hz : st.outfits.countP
        (fun r => (r.data == outfitDataOf p now) &&
          (r.data.session_id == p.session_id && r.data.saved)) = 0 :=
      List.countP_eq_zero.mpr (fun r hr => by simp [h1 r hr])
    have hone : List.countP
        (fun r : Row => (r.data == outfitDataOf p now) &&
          (r.data.session_id == p.session_id && r.data.saved))
        [⟨i, outfitDataOf p now⟩] = 1 := by
      simp [outfitDataOf]
    rw [hz, hone]
  cases eu <;> cases du
  · -- both gateway tiers down: local save tier, local fetch tier
    simp only [saveFit, getSavedFits, contentCount, Bool.false_eq_true, if_false]
    rw [List.countP_filter, List.countP_append]
    have hz : st.saved_outfits.countP
        (fun r => (r.data == outfitDataOf p now) &&
          (r.data.session_id == p.session_id)) = 0 :=
      List.countP_eq_zero.mpr (fun r hr => by simp [h2 r hr])
    have hone : List.countP
        (fun r : Row => (r.data == outfitDataOf p now) && (r.data.session_id == p.session_id))
        [⟨"local_" ++ toString now, outfitDataOf p now⟩] = 1 := by
      simp [outfitDataOf]
    rw [hz, hone]
  · -- edge down, direct store up
    simp only [saveFit, getSavedFits, Bool.false_eq_true, if_false, if_true]
    exact hrow (toString st.nextId)
  · -- edge up, direct store down
    simp only [saveFit, getSavedFits, if_true]
    exact hrow (toString st.nextId)
  · -- everything up
    simp only [saveFit, getSavedFits, if_true]
    exact hrow (toString st.nextId)

/-- C3 witness: the amended theorem applied with the gateway up for both
calls on an empty store. -/
theorem save_then_fetch_same_env_exactly_once_witness :
    contentCount (outfitDataOf samplePayload 5)
      (getSavedFits envAllUp samplePayload.session_id
        (saveFit envAllUp samplePayload 5 emptyStore).2) = 1 :=
  save_then_fetch_same_env_exactly_once envAllUp samplePayload 5 emptyStore
    (by simp [emptyStore]) (by simp [emptyStore])

/-- C4 counterexample: on the local-cache tier, fetchAll returns the cached
records in append order, which for records saved over time is oldest-first:
with an older and a newer record for the session in the cache (gateway
down), the result is the cache order, the first element is older than the
second, and the list is not sorted newest-first. -/
theorem local_cache_fetch_not_newest_first :
    getSavedFits envAllDown "s" cacheStore = [rowOld, rowNew] ∧
    rowOld.data.created_at < rowNew.data.created_at ∧
    ¬ List.Sorted newestFirst (getSavedFits envAllDown "s" cacheStore) := by
  refine ⟨by decide, by decide, by decide⟩

/-- C4 (amended): fetchAll always resolves, and on every tier it returns
only records of the requested session.  Newest-first ordering holds on the
two gateway tiers; the local-cache tier instead returns the matching
records in cache (append) order, with no `saved` check and no reordering. -/
theorem fetchAll_filter_and_order (env : Env) (sessionId : String) (st : Store) :
    (∀ r ∈ getSavedFits env sessionId st, r.data.session_id = sessionId) ∧
    ((env.edgeUp || env.dbUp) = true →
      List.Sorted newestFirst (getSavedFits env sessionId st)) ∧
    ((env.edgeUp || env.dbUp) = false →
      getSavedFits env sessionId st
        = st.saved_outfits.filter (fun r => r.data.session_id == sessionId)) := by
  obtain ⟨eu, du⟩ := env
  have hgate : ∀ r ∈ gatewayQuery sessionId st.outfits, r.data.session_id = sessionId := by
    intro r hr
    rw [gatewayQuery, List.mem_insertionSort, List.mem_filter] at hr
    have := hr.2
    simp only [Bool.and_eq_true, beq_iff_eq] at this
    exact this.1
  have hsorted : List.Sorted newestFirst (gatewayQuery sessionId st.outfits) :=
    List.sorted_insertionSort newestFirst _
  cases eu <;> cases du
  · refine ⟨?_, by simp, fun _ => rfl⟩
    intro r hr
    simp only [getSavedFits, Bool.false_eq_true, if_false, List.mem_filter,
      beq_iff_eq] at hr
    exact hr.2
  · exact ⟨hgate, fun _ => hsorted, by simp⟩
  · exact ⟨hgate, fun _ => hsorted, by simp⟩
  · exact ⟨hgate, fun _ => hsorted, by simp⟩

/-- C4 witness: the amended theorem applied on the gateway tier (sorted
output) and on the cache tier (append order preserved). -/
theorem fetchAll_filter_and_order_witness :
    (∀ r ∈ getSavedFits ⟨true, false⟩ "s" backendStore, r.data.session_id = "s") ∧
    List.Sorted newestFirst (getSavedFits ⟨true, false⟩ "s" backendStore) ∧
    getSavedFits envAllDown "s" cacheStore
      = cacheStore.saved_outfits.filter (fun r => r.data.session_id == "s") :=
  ⟨(fetchAll_filter_and_order ⟨true, false⟩ "s" backendStore).1,
   (fetchAll_filter_and_order ⟨true, false⟩ "s" backendStore).2.1 rfl,
   (fetchAll_filter_and_order envAllDown "s" cacheStore).2.2 rfl⟩

/-- C7: `analyzeFit` returns the gateway payload exactly when the remote
call succeeded and its data has a descriptive field (a truthy `top` or a
nonempty `ai_description`); every failure — raise, `error`, null data, or
a structurally empty payload — makes the result the synthesizer tier's
output. -/
theorem analyzeFit_gateway_validation (edge : EdgeOutcome) (p : AnalyzePayload)
    (rng : Rng) (now : Nat) :
    (edgeTierFailed edge = false →
      ∃ a, edge = .ok (some a) ∧ (truthy a.top = true ∨ a.ai_description ≠ "") ∧
        analyzeFit edge p rng now = some a) ∧
    (edgeTierFailed edge = true →
      analyzeFit edge p rng now = generateMockAnalysis (mockParamsOf p) rng now) := by
  constructor
  · intro h
    match edge with
    | .failed => simp [edgeTierFailed] at h
    | .ok none => simp [edgeTierFailed, edgeDataUsable] at h
    | .ok (some a) =>
      have hu : edgeDataUsable (some a) = true := by
        simpa [edgeTierFailed] using h
      have h' : (truthy a.top || a.ai_description != "") = true := hu
      have h'' : truthy a.top = true ∨ a.ai_description ≠ "" := by
        rcases Bool.or_eq_true_iff.mp h' with hx | hy
        · exact .inl hx
        · exact .inr (by simpa using hy)
      refine ⟨a, rfl, h'', ?_⟩
      simp [analyzeFit, hu]
  · intro h
    match edge with
    | .failed => rfl
    | .ok d =>
      simp only [edgeTierFailed, Bool.not_eq_true'] at h
      simp [analyzeFit, h]

/-- C7 witness: the theorem applied at a usable gateway response and at a
failed gateway call. -/
theorem analyzeFit_gateway_validation_witness :
    (∃ a, EdgeOutcome.ok (some sampleRemoteAnalysis) = EdgeOutcome.ok (some a) ∧
      (truthy a.top = true ∨ a.ai_description ≠ "") ∧
      analyzeFit (.ok (some sampleRemoteAnalysis)) sampleAnalyzePayload rng0 3 = some a) ∧
    analyzeFit .failed sampleAnalyzePayload rng0 3
      = generateMockAnalysis (mockParamsOf sampleAnalyzePayload) rng0 3 :=
  ⟨(analyzeFit_gateway_validation (.ok (some sampleRemoteAnalysis))
      sampleAnalyzePayload rng0 3).1 (by decide),
   (analyzeFit_gateway_validation .failed sampleAnalyzePayload rng0 3).2 rfl⟩

/-- C10 witness: the theorem applied to the sample cache store, a fresh
save and the deletion of the older cached record. -/
theorem local_cache_mutation_frame_witness :
    (saveFit envAllDown samplePayload 5 cacheStore).2.saved_outfits
      = cacheStore.saved_outfits ++ [(saveFit envAllDown samplePayload 5 cacheStore).1] ∧
    (deleteOutfit envAllUp "local_1" cacheStore).2.saved_outfits
      = cacheStore.saved_outfits.filter (fun r => r.id != "local_1") :=
  ⟨(local_cache_mutation_frame envAllUp samplePayload 5 cacheStore "local_1"
      (by decide)).1.1,
   (local_cache_mutation_frame envAllUp samplePayload 5 cacheStore "local_1"
      (by decide)).2.1⟩

end FireFit
